import Mathlib

/-!
Shallow embedding of the WebSocket-to-RTMP relay server (`server.js` of the
Canvas-Streaming-Example repository).  The server accepts WebSocket
connections, validates the request path against the regex
`^\/rtmp\/(.*)$`, percent-decodes the captured suffix into an RTMP URL,
spawns one ffmpeg child process per connection, pipes incoming binary
chunks to the child's stdin, and couples the lifetimes of the connection
and the process through event handlers.
-/

namespace Relay

/-- A JavaScript line terminator: in a regex without the `s` flag, `.` matches
any character except these four, so the capture group `(.*)` of
`^\/rtmp\/(.*)$` cannot span them. -/
def isLineTerminator (c : Char) : Bool :=
  c = Char.ofNat 10 || c = Char.ofNat 13 || c = Char.ofNat 0x2028 || c = Char.ofNat 0x2029

/-- Model of `req.url.match(/^\/rtmp\/(.*)$/)` (server.js line 34): the match
succeeds exactly when the URL starts with the six characters `/rtmp/` and the
rest of the URL contains no line terminator; the capture group is that rest. -/
def matchRtmp (url : String) : Option String :=
  let cs := url.toList
  if cs.take 6 = "/rtmp/".toList && (cs.drop 6).all (fun c => !isLineTerminator c)
  then some (String.mk (cs.drop 6)) else none

/-- Value of a hexadecimal digit character (code points 0-9, A-F, a-f),
`none` for a non-hex character. -/
def hexVal (c : Char) : Option Nat :=
  let n := c.toNat
  if 48 ≤ n && n ≤ 57 then some (n - 48)
  else if 65 ≤ n && n ≤ 70 then some (n - 55)
  else if 97 ≤ n && n ≤ 102 then some (n - 87)
  else none

/-- Token of the percent-decoding scan: either a character kept verbatim or
the byte value of one `%HH` escape. -/
inductive PctTok where
  | raw (c : Char)
  | byte (b : Nat)
  deriving DecidableEq

/-- First pass of the ECMAScript `Decode` algorithm: split the input into
verbatim characters and `%HH` escape bytes; fail (URIError) when a `%` is not
followed by two hexadecimal digits. -/
def toToks : List Char → Option (List PctTok)
  | [] => some []
  | '%' :: rest =>
    match rest with
    | a :: b :: rest2 =>
      match hexVal a, hexVal b with
      | some ha, some hb => (toToks rest2).map (fun ts => PctTok.byte (16 * ha + hb) :: ts)
      | _, _ => none
    | _ => none
  | c :: rest => (toToks rest).map (fun ts => PctTok.raw c :: ts)

/-- Value of a UTF-8 continuation byte escape, `none` if the token is not a
`%HH` escape with byte in `[0x80, 0xBF]`. -/
def contVal : PctTok → Option Nat
  | PctTok.byte b => if 0x80 ≤ b && b < 0xC0 then some (b - 0x80) else none
  | PctTok.raw _ => none

/-- Second pass of the ECMAScript `Decode` algorithm: verbatim characters pass
through; escape bytes below 0x80 decode to that character; higher escape bytes
must form a valid (shortest-form, non-surrogate) UTF-8 sequence of consecutive
escapes, which decodes to the encoded code point; anything else is a URIError. -/
def fromToks : List PctTok → Option (List Char)
  | [] => some []
  | PctTok.raw c :: rest => (fromToks rest).map (fun cs => c :: cs)
  | PctTok.byte b :: rest =>
    if b < 0x80 then (fromToks rest).map (fun cs => Char.ofNat b :: cs)
    else if b < 0xC2 then none
    else if b < 0xE0 then
      match rest with
      | t1 :: rest2 =>
        match contVal t1 with
        | some v1 => (fromToks rest2).map (fun cs => Char.ofNat ((b - 0xC0) * 0x40 + v1) :: cs)
        | none => none
      | [] => none
    else if b < 0xF0 then
      match rest with
      | t1 :: t2 :: rest2 =>
        match contVal t1, contVal t2 with
        | some v1, some v2 =>
          let cp := (b - 0xE0) * 0x1000 + v1 * 0x40 + v2
          if 0x800 ≤ cp && !(0xD800 ≤ cp && cp ≤ 0xDFFF)
          then (fromToks rest2).map (fun cs => Char.ofNat cp :: cs)
          else none
        | _, _ => none
      | _ => none
    else if b < 0xF5 then
      match rest with
      | t1 :: t2 :: t3 :: rest2 =>
        match contVal t1, contVal t2, contVal t3 with
        | some v1, some v2, some v3 =>
          let cp := (b - 0xF0) * 0x40000 + v1 * 0x1000 + v2 * 0x40 + v3
          if 0x10000 ≤ cp && cp ≤ 0x10FFFF
          then (fromToks rest2).map (fun cs => Char.ofNat cp :: cs)
          else none
        | _, _, _ => none
      | _ => none
    else none

/-- Model of the JavaScript builtin `decodeURIComponent` (server.js line 39):
`some` of the decoded string, or `none` when the builtin throws a URIError.
Exact on ASCII data; multi-byte escapes are assembled per strict UTF-8. -/
def decodeURIComponent (s : String) : Option String :=
  match toToks s.toList with
  | none => none
  | some toks => (fromToks toks).map (fun cs => String.mk cs)

/-- Outcome of the `wss.on('connection')` handler (server.js lines 30-104) for
a given request URL. -/
inductive ConnOutcome where
  /-- The URL did not match `^\/rtmp\/(.*)$`: `ws.terminate()` is called and
  the handler returns — no session state, no handlers, no child process. -/
  | rejected
  /-- `decodeURIComponent` threw a URIError; the exception propagates out of
  the connection handler, so no child process is spawned. -/
  | decodeError
  /-- A session is created: ffmpeg is spawned with `rtmpUrl` as the output
  target and the five event handlers are registered. -/
  | session (rtmpUrl : String)
  deriving DecidableEq

/-- The connection handler (server.js lines 30-43): match the URL, reject on
no match, otherwise percent-decode the capture into `rtmpUrl` and spawn. -/
def handleConnection (url : String) : ConnOutcome :=
  match matchRtmp url with
  | none => ConnOutcome.rejected
  | some cap =>
    match decodeURIComponent cap with
    | none => ConnOutcome.decodeError
    | some rtmpUrl => ConnOutcome.session rtmpUrl

/-- The argument vector passed to `child_process.spawn('ffmpeg', ...)`
(server.js lines 43-73); the decoded RTMP URL is the final argument. -/
def ffmpegArgs (rtmpUrl : String) : List String :=
  ["-f", "lavfi", "-i", "anullsrc",
   "-i", "-",
   "-shortest",
   "-vcodec", "copy",
   "-acodec", "aac",
   "-f", "flv",
   rtmpUrl]

/-- A Chunk: one binary WebSocket message, a sequence of bytes. -/
abbrev Chunk : Type := List Nat

/-- An event delivered to one of the five handlers the connection handler
registers (server.js lines 76-102). -/
inductive SessionEvent where
  /-- `close` on the ffmpeg child process, with its exit code and signal
  (each may be null). -/
  | ffmpegClose (code : Option Int) (signal : Option String)
  /-- `error` on `ffmpeg.stdin`, e.g. a write after the process exited;
  `e` renders the error object. -/
  | stdinError (e : String)
  /-- `data` on `ffmpeg.stderr`; `d` is `data.toString()`. -/
  | stderrData (d : String)
  /-- `message` on the WebSocket: one inbound Chunk. -/
  | wsMessage (msg : Chunk)
  /-- `close` on the WebSocket. -/
  | wsClose
  deriving DecidableEq

/-- An observable action a handler performs. -/
inductive Action where
  /-- `console.log` of a plain string. -/
  | log (s : String)
  /-- `console.log('DATA', msg)` (server.js line 95). -/
  | logData (msg : Chunk)
  /-- `ws.terminate()`. -/
  | wsTerminate
  /-- `ffmpeg.stdin.write(msg)`. -/
  | stdinWrite (msg : Chunk)
  /-- `ffmpeg.kill(signal)`. -/
  | kill (signal : String)
  deriving DecidableEq

/-- String JavaScript produces when concatenating an exit code
(number or null) into a log message. -/
def jsShowCode : Option Int → String
  | none => "null"
  | some n => toString n

/-- String JavaScript produces when concatenating a signal name
(string or null) into a log message. -/
def jsShowSignal : Option String → String
  | none => "null"
  | some s => s

/-- The log message of the ffmpeg `close` handler (server.js line 77). -/
def ffmpegCloseMsg (code : Option Int) (signal : Option String) : String :=
  "FFmpeg child process closed, code " ++ jsShowCode code ++ ", signal " ++ jsShowSignal signal

/-- The five registered event handlers, translated one branch per handler from
server.js lines 76-102.  Each branch lists, in program order, exactly the
actions the corresponding JavaScript callback performs. -/
def handleEvent : SessionEvent → List Action
  | SessionEvent.ffmpegClose code signal =>
      [Action.log (ffmpegCloseMsg code signal), Action.wsTerminate]
  | SessionEvent.stdinError e => [Action.log ("FFmpeg STDIN Error " ++ e)]
  | SessionEvent.stderrData d => [Action.log ("FFmpeg STDERR: " ++ d)]
  | SessionEvent.wsMessage msg => [Action.logData msg, Action.stdinWrite msg]
  | SessionEvent.wsClose => [Action.kill "SIGINT"]

/-- Actions performed over a whole session trace: events are dispatched to
their handlers one at a time, in arrival order (the Node.js event loop runs
one callback to completion before the next). -/
def runSession : List SessionEvent → List Action
  | [] => []
  | e :: rest => handleEvent e ++ runSession rest

/-- The chunks carried by the `message` events of a trace, in order. -/
def chunksOf (evs : List SessionEvent) : List Chunk :=
  evs.filterMap fun e =>
    match e with
    | SessionEvent.wsMessage msg => some msg
    | _ => none

/-- The payloads written to ffmpeg's stdin by a list of actions, in order. -/
def writesOf (acts : List Action) : List Chunk :=
  acts.filterMap fun a =>
    match a with
    | Action.stdinWrite msg => some msg
    | _ => none

/-- Whether an action tears the session down (closes the connection or
signals the process). -/
def isTeardown : Action → Bool
  | Action.wsTerminate => true
  | Action.kill _ => true
  | _ => false

/-- Event names with a registered listener on the ffmpeg child process:
only `close` (server.js line 76).  In particular there is no listener for
the `error` event the child emits when the spawn itself fails. -/
def ffmpegListeners : List String := ["close"]

/-- Event names with a registered listener on `ffmpeg.stdin`:
only `error` (server.js line 84). -/
def ffmpegStdinListeners : List String := ["error"]

/-- Event names with a registered listener on `ffmpeg.stderr`:
only `data` (server.js line 89). -/
def ffmpegStderrListeners : List String := ["data"]

/-- Event names with a registered listener on the WebSocket:
`message` and `close` (server.js lines 94 and 100). -/
def wsListeners : List String := ["message", "close"]

/-- Result of emitting an event on a Node.js EventEmitter. -/
inductive EmitResult where
  /-- A listener ran and performed these actions. -/
  | handled (acts : List Action)
  /-- The event was `error` and no listener was registered: Node.js throws
  the error, crashing the whole server process (the source's own comment at
  server.js lines 81-83 notes exactly this). -/
  | crashed
  deriving DecidableEq

/-- Emitting an `error` event on an emitter with the given registered
listener names, whose `error` listener (when present) performs `acts`. -/
def emitError (listeners : List String) (acts : List Action) : EmitResult :=
  if "error" ∈ listeners then EmitResult.handled acts else EmitResult.crashed

/-- Concatenating session traces concatenates the produced actions. -/
theorem runSession_append (a b : List SessionEvent) :
    runSession (a ++ b) = runSession a ++ runSession b := by
  induction a with
  | nil => rfl
  | cons e rest ih => simp [runSession, ih, List.append_assoc]

/-- C1: every Chunk arriving on the WebSocket is written to ffmpeg's stdin
synchronously inside the `message` handler, and over any session trace the
sequence of stdin writes equals the sequence of received Chunks — same order,
no drops, no reordering, no duplication. -/
theorem chunk_pump_preserves_order :
    (∀ msg : Chunk, handleEvent (SessionEvent.wsMessage msg) =
        [Action.logData msg, Action.stdinWrite msg])
    ∧ ∀ evs : List SessionEvent, writesOf (runSession evs) = chunksOf evs := by
  constructor
  · intro msg
    rfl
  · intro evs
    induction evs with
    | nil => rfl
    | cons e rest ih =>
      cases e <;>
        simp [runSession, handleEvent, writesOf, chunksOf, List.filterMap_append,
          List.filterMap_cons] at ih ⊢ <;>
        exact ih

/-- C2: whenever the ffmpeg child process closes — any exit code, any signal —
its `close` handler synchronously calls `ws.terminate()`, so no session trace
containing a process exit leaves the connection untouched. -/
theorem process_exit_terminates_connection :
    (∀ (code : Option Int) (signal : Option String),
        handleEvent (SessionEvent.ffmpegClose code signal) =
          [Action.log (ffmpegCloseMsg code signal), Action.wsTerminate])
    ∧ ∀ (evs : List SessionEvent) (code : Option Int) (signal : Option String),
        SessionEvent.ffmpegClose code signal ∈ evs →
          Action.wsTerminate ∈ runSession evs := by
  constructor
  · intro code signal
    rfl
  · intro evs code signal h
    induction evs with
    | nil => cases h
    | cons e rest ih =>
      rcases List.mem_cons.mp h with he | hr
      · subst he
        simp [runSession, handleEvent]
      · simp only [runSession, List.mem_append]
        exact Or.inr (ih hr)

/-- Witness for C2 at a concrete trace: a session whose process exits with
code 1 has its connection terminated. -/
theorem process_exit_terminates_connection_witness :
    SessionEvent.ffmpegClose (some 1) none ∈ [SessionEvent.ffmpegClose (some 1) none]
    ∧ Action.wsTerminate ∈ runSession [SessionEvent.ffmpegClose (some 1) none] :=
  ⟨by decide, process_exit_terminates_connection.2 _ (some 1) none (by decide)⟩

/-- C3: whenever the WebSocket closes, the `close` handler sends the child
process a termination signal, so in any session trace containing the
connection close a kill is issued — no orphaned process. -/
theorem connection_close_signals_process :
    ∀ evs : List SessionEvent, SessionEvent.wsClose ∈ evs →
      Action.kill "SIGINT" ∈ runSession evs := by
  intro evs h
  induction evs with
  | nil => cases h
  | cons e rest ih =>
    rcases List.mem_cons.mp h with he | hr
    · subst he
      simp [runSession, handleEvent]
    · simp only [runSession, List.mem_append]
      exact Or.inr (ih hr)

/-- Witness for C3 at a concrete trace: a session that receives data and then
a connection close sends the termination signal. -/
theorem connection_close_signals_process_witness :
    SessionEvent.wsClose ∈ [SessionEvent.wsMessage [7], SessionEvent.wsClose]
    ∧ Action.kill "SIGINT" ∈ runSession [SessionEvent.wsMessage [7], SessionEvent.wsClose] :=
  ⟨by decide, connection_close_signals_process _ (by decide)⟩

/-- C4: a request URL that does not match `^\/rtmp\/(.*)$` makes the
connection handler terminate the connection and return — no session, no
decode, no child process spawned. -/
theorem nonmatching_path_rejected :
    ∀ url : String, matchRtmp url = none → handleConnection url = ConnOutcome.rejected := by
  intro url h
  simp [handleConnection, h]

/-- Witness for C4 at a concrete URL: a plain HTTP-looking path is rejected. -/
theorem nonmatching_path_rejected_witness :
    matchRtmp "/index.html" = none
    ∧ handleConnection "/index.html" = ConnOutcome.rejected :=
  ⟨by decide, nonmatching_path_rejected _ (by decide)⟩

/-- C5: when the URL matches, the captured suffix is percent-decoded and the
decoded string is the session's destination, passed verbatim as the final
positional argument of the ffmpeg argument vector. -/
theorem decoded_suffix_passed_verbatim :
    ∀ url cap dst : String, matchRtmp url = some cap → decodeURIComponent cap = some dst →
      handleConnection url = ConnOutcome.session dst
      ∧ (ffmpegArgs dst).getLast? = some dst := by
  intro url cap dst h1 h2
  constructor
  · simp [handleConnection, h1, h2]
  · rfl

/-- Witness for C5 at a concrete URL: `/rtmp/rtmp%3A%2F%2Fa%2Fb` spawns with
destination `rtmp://a/b` as last argument. -/
theorem decoded_suffix_passed_verbatim_witness :
    matchRtmp "/rtmp/rtmp%3A%2F%2Fa%2Fb" = some "rtmp%3A%2F%2Fa%2Fb"
    ∧ decodeURIComponent "rtmp%3A%2F%2Fa%2Fb" = some "rtmp://a/b"
    ∧ (handleConnection "/rtmp/rtmp%3A%2F%2Fa%2Fb" = ConnOutcome.session "rtmp://a/b"
       ∧ (ffmpegArgs "rtmp://a/b").getLast? = some "rtmp://a/b") :=
  ⟨by decide, by decide,
    decoded_suffix_passed_verbatim "/rtmp/rtmp%3A%2F%2Fa%2Fb" "rtmp%3A%2F%2Fa%2Fb" "rtmp://a/b"
      (by decide) (by decide)⟩

/-- Counterexample to C6 as stated: at the concrete failed write
`Error: write EPIPE`, the stdin `error` handler only logs — its action list
contains no `ws.terminate()` and no `ffmpeg.kill(...)`, so the write failure
itself does not tear the Session down. -/
theorem stdin_error_only_logged_no_teardown :
    handleEvent (SessionEvent.stdinError "Error: write EPIPE") =
      [Action.log "FFmpeg STDIN Error Error: write EPIPE"]
    ∧ (handleEvent (SessionEvent.stdinError "Error: write EPIPE")).all
        (fun a => !isTeardown a) = true := by
  decide

/-- C6 (amended): a failed stdin write is caught by the registered `error`
listener and logged — it never crashes the server — but the handler performs
no teardown action; the Session is torn down only by the process-exit or
connection-close handlers. -/
theorem stdin_error_caught_logged_server_survives :
    ∀ e : String,
      emitError ffmpegStdinListeners (handleEvent (SessionEvent.stdinError e)) =
        EmitResult.handled [Action.log ("FFmpeg STDIN Error " ++ e)]
      ∧ (handleEvent (SessionEvent.stdinError e)).all (fun a => !isTeardown a) = true := by
  intro e
  exact ⟨rfl, rfl⟩

/-- Counterexample to C7 as stated: the child process has no `error` listener
(only `close` is registered), so the `error` event a spawn failure emits —
for example ENOENT when ffmpeg is not installed — crashes the whole relay
server process rather than failing only that Session. -/
theorem spawn_error_event_crashes_server :
    "error" ∉ ffmpegListeners
    ∧ emitError ffmpegListeners [] = EmitResult.crashed := by
  decide

/-- C7 (amended): a spawn failure surfaces as an `error` event on the child
process; no listener for it is registered, so emitting it always crashes the
relay server process — the failure is fatal to the server, not contained to
the Session. -/
theorem child_error_event_always_crashes :
    ∀ acts : List Action, emitError ffmpegListeners acts = EmitResult.crashed := by
  intro acts
  rfl

/-- Counterexample to C8 as stated: the URL `/rtmp/` matches the pattern with
an empty capture, no non-emptiness check exists, and a session is created —
ffmpeg is spawned with the empty string as its final (destination)
argument. -/
theorem empty_destination_session_spawned :
    handleConnection "/rtmp/" = ConnOutcome.session ""
    ∧ (ffmpegArgs "").getLast? = some "" := by
  decide

/-- C8 (amended): a Session is created exactly when the request path matches
`^\/rtmp\/(.*)$` and the capture percent-decodes without error; the decoded
destination address may be empty — emptiness is never checked. -/
theorem session_iff_match_and_decode :
    ∀ url : String,
      (∃ dst, handleConnection url = ConnOutcome.session dst) ↔
        ∃ cap, matchRtmp url = some cap ∧ (decodeURIComponent cap).isSome = true := by
  intro url
  cases h1 : matchRtmp url with
  | none => simp [handleConnection, h1]
  | some cap =>
    cases h2 : decodeURIComponent cap with
    | none => simp [handleConnection, h1, h2]
    | some dst => simp [handleConnection, h1, h2]

/-- Counterexample to C9 as stated: the scenario's path uses the `/relay/`
prefix, but the code's pattern is `^\/rtmp\/(.*)$`, so the connection is
terminated and no process is spawned. -/
theorem relay_path_scenario_rejected :
    handleConnection "/relay/rtmp%3A%2F%2Fhost%2Fapp%2Fkey" = ConnOutcome.rejected := by
  decide

/-- First chunk of the C9 scenario: 1024 bytes. -/
def scenarioChunk1 : Chunk := List.replicate 1024 0

/-- Second chunk of the C9 scenario: 2048 bytes. -/
def scenarioChunk2 : Chunk := List.replicate 2048 0

/-- Third chunk of the C9 scenario: 512 bytes. -/
def scenarioChunk3 : Chunk := List.replicate 512 0

/-- Session trace of the C9 scenario: three chunks then the connection
closes. -/
def scenarioEvents : List SessionEvent :=
  [SessionEvent.wsMessage scenarioChunk1, SessionEvent.wsMessage scenarioChunk2,
   SessionEvent.wsMessage scenarioChunk3, SessionEvent.wsClose]

/-- C9 (amended): with the code's `/rtmp/` prefix, the scenario behaves as
described — the process is spawned with destination `rtmp://host/app/key`,
the three chunks are written to its stdin in order with sizes 1024, 2048,
512, and then the termination signal is sent. -/
theorem rtmp_path_scenario_trace :
    handleConnection "/rtmp/rtmp%3A%2F%2Fhost%2Fapp%2Fkey" =
      ConnOutcome.session "rtmp://host/app/key"
    ∧ (ffmpegArgs "rtmp://host/app/key").getLast? = some "rtmp://host/app/key"
    ∧ runSession scenarioEvents =
        [Action.logData scenarioChunk1, Action.stdinWrite scenarioChunk1,
         Action.logData scenarioChunk2, Action.stdinWrite scenarioChunk2,
         Action.logData scenarioChunk3, Action.stdinWrite scenarioChunk3,
         Action.kill "SIGINT"]
    ∧ (writesOf (runSession scenarioEvents)).map List.length = [1024, 2048, 512] := by
  refine ⟨by decide, by decide, by rfl, ?_⟩
  have hw : writesOf (runSession scenarioEvents) =
      [scenarioChunk1, scenarioChunk2, scenarioChunk3] := rfl
  rw [hw]
  simp only [scenarioChunk1, scenarioChunk2, scenarioChunk3, List.map_cons, List.map_nil,
    List.length_replicate]

/-- C10: the WebSocket `close` handler's one and only action is
`ffmpeg.kill('SIGINT')` — the signal is specifically SIGINT, and it is sent
unconditionally: wherever the close appears in a trace, even after the
process has already exited, the kill is issued (the handler performs no
liveness check). -/
theorem ws_close_kills_sigint_unconditionally :
    handleEvent SessionEvent.wsClose = [Action.kill "SIGINT"]
    ∧ ∀ pre post : List SessionEvent,
        runSession (pre ++ SessionEvent.wsClose :: post) =
          runSession pre ++ Action.kill "SIGINT" :: runSession post := by
  constructor
  · rfl
  · intro pre post
    rw [runSession_append]
    rfl

end Relay
